import Mathlib

set_option linter.unusedVariables false

/-!
Shallow embedding of `frontera/contrib/messagebus/kafkabus.py`, the Kafka
message-bus layer of the frontera crawl frontier.

Modelling conventions:
* Message payloads and routing keys are opaque byte blobs: `List Nat`.
* The external kafka-python client objects (`KafkaConsumer`, `KafkaProducer`)
  are modelled as explicit state records; their broker-side inputs (partition
  metadata, the messages a consumer will receive, committed positions, whether
  a commit attempt fails) are collected in a `KafkaEnv` environment record.
* Python exceptions are modelled with `Except String`.
* Python 3 semantics for the comparison of the type tag against the byte
  string sw: a bytes value and a str value are never equal, which the
  inductive `PyVal` captures.
* The collaborators imported from outside this module
  (`FingerprintPartitioner`, `Crc32NamePartitioner`, `OffsetsFetcherAsync`)
  are external to the file under analysis: partitioners are abstract
  functions supplied by the environment, and the result of the get method of
  the offsets fetcher is passed to `available_partitions` as an association
  list.
-/

namespace Kafkabus

/-- Opaque byte blob: message payloads and routing keys. -/
abbrev Bytes := List Nat

/-- kafka-python TopicPartition: a (topic, partition index) pair. -/
structure TopicPartition where
  topic : String
  partition : Nat
deriving DecidableEq, Repr

/-- A Python 3 value used as the `type` tag of SpiderLogStream.consumer:
bytes and str are distinct types and compare unequal. -/
inductive PyVal where
  | bytes (b : Bytes)
  | str (s : String)
deriving DecidableEq, Repr

/-- The byte string b\x27sw\x27 (bytes 115, 119). -/
def swTag : PyVal := PyVal.bytes [115, 119]

/-- A record handed to KafkaProducer.send: topic, optional routing key,
partition chosen by the partitioner when a key and a partitioner are present,
and the opaque value. -/
structure ProducerRecord where
  topic : String
  key : Option Bytes
  partition : Option Nat
  value : Bytes
deriving DecidableEq, Repr

/-- Broker-side metadata: which partition ids exist for each topic. -/
structure Broker where
  partitionsForTopic : String → List Nat

/-- Environment a freshly constructed consumer or producer observes: broker
metadata, the stream of messages the consumer will receive, the consumer
positions per partition, and whether a commit attempt fails. -/
structure KafkaEnv where
  broker : Broker
  pending : List Bytes
  positionOf : TopicPartition → Int
  commitFails : Bool
  fingerprintPartitioner : Nat → Bytes → Nat
  crc32NamePartitioner : Nat → Bytes → Nat

/-- State of a kafka-python KafkaConsumer as this module uses it. -/
structure KafkaConsumer where
  bootstrapServers : String
  groupId : String
  maxPartitionFetchBytes : Nat
  consumerTimeoutMs : Nat
  clientId : String
  requestTimeoutMs : Nat
  heartbeatIntervalMs : Nat
  pending : List Bytes
  positionOf : TopicPartition → Int
  commitFails : Bool
  committed : Bool
  closed : Bool

/-- KafkaConsumer.commit: records the read position, or raises
CommitFailedError when the broker rejects the commit. -/
def KafkaConsumer.commit (kc : KafkaConsumer) : Except String KafkaConsumer :=
  if kc.commitFails then Except.error "CommitFailedError"
  else Except.ok { kc with committed := true }

/-- KafkaConsumer.close: releases the connection. -/
def KafkaConsumer.closeConnection (kc : KafkaConsumer) : KafkaConsumer :=
  { kc with closed := true }

/-- frontera Consumer (kafkabus.py lines 42-98): wraps a KafkaConsumer, with
its static or subscription-derived partition assignment. -/
structure Consumer where
  _location : String
  _group : String
  _topic : String
  _partitions : List TopicPartition
  _consumer : KafkaConsumer

/-- Consumer.__init__ (kafkabus.py lines 47-77): builds the KafkaConsumer with
consumer_timeout_ms=100 and related constants, then either statically assigns
the single partition `partition_id` or subscribes and takes the assignment
from the topic metadata. The ssl/sasl arguments only shape the connection
kwargs and do not influence the modelled state. -/
def Consumer.init (location : String) (enable_ssl : Bool) (cert_path : String)
    (topic group : String) (partition_id : Option Nat)
    (enable_sasl : Bool) (sasl_username sasl_password : String)
    (env : KafkaEnv) : Consumer :=
  let kc : KafkaConsumer :=
    { bootstrapServers := location
      groupId := group
      maxPartitionFetchBytes := 10485760
      consumerTimeoutMs := 100
      clientId := topic ++ "-" ++
        (match partition_id with
         | some pid => toString pid
         | none => "all")
      requestTimeoutMs := 120 * 1000
      heartbeatIntervalMs := 10000
      pending := env.pending
      positionOf := env.positionOf
      commitFails := env.commitFails
      committed := false
      closed := false }
  { _location := location
    _group := group
    _topic := topic
    _partitions :=
      match partition_id with
      | some pid => [⟨topic, pid⟩]
      | none => (env.broker.partitionsForTopic topic).map (fun pid => ⟨topic, pid⟩)
    _consumer := kc }

/-- The while-loop of Consumer.get_messages: repeatedly take the next message
until `count` messages were taken or the consumer iterator raises
StopIteration (no message within the consumer timeout). Returns the collected
batch and the remaining message stream. -/
def getMessagesLoop : Nat → List Bytes → List Bytes × List Bytes
  | 0, pending => ([], pending)
  | _ + 1, [] => ([], [])
  | count + 1, m :: rest =>
      let (result, pending) := getMessagesLoop count rest
      (m :: result, pending)

/-- Consumer.get_messages (kafkabus.py lines 79-88). The timeout argument is
accepted but never read by the body. -/
def Consumer.get_messages (c : Consumer) (timeout : ℚ) (count : Nat) :
    List Bytes × Consumer :=
  let (result, pending) := getMessagesLoop count c._consumer.pending
  (result, { c with _consumer := { c._consumer with pending := pending } })

/-- Consumer.get_offset (kafkabus.py lines 90-94): scans the assigned
partitions for `partition_id`; returns the consumer position on the first
match, raises KeyError when no assigned partition matches. -/
def Consumer.get_offset (c : Consumer) (partition_id : Nat) : Except String Int :=
  match c._partitions.find? (fun tp => tp.partition == partition_id) with
  | some tp => Except.ok (c._consumer.positionOf tp)
  | none => Except.error "KeyError: Cant find partition"

/-- Consumer.close (kafkabus.py lines 96-98): commit, then close. There is no
exception handling: when the commit raises, the close call is never reached
and the consumer state is unchanged. Returns the raised-or-ok outcome together
with the final consumer state. -/
def Consumer.close (c : Consumer) : Except String Unit × Consumer :=
  match c._consumer.commit with
  | Except.error e => (Except.error e, c)
  | Except.ok kc => (Except.ok (), { c with _consumer := kc.closeConnection })

/-- Module-level constant DEFAULT_BATCH_SIZE. -/
def DEFAULT_BATCH_SIZE : Nat := 1024 * 1024

/-- Module-level constant DEFAULT_BUFFER_MEMORY. -/
def DEFAULT_BUFFER_MEMORY : Nat := 130 * 1024 * 1024

/-- Module-level constant DEFAULT_MAX_REQUEST_SIZE. -/
def DEFAULT_MAX_REQUEST_SIZE : Nat := 4 * 1024 * 1024

/-- State of a kafka-python KafkaProducer as this module uses it: its
configuration and the ordered log of records handed to send. -/
structure KafkaProducer where
  bootstrapServers : String
  partitioner : Option (Bytes → Nat)
  retries : Nat
  compressionType : String
  maxRequestSize : Nat
  batchSize : Nat
  bufferMemory : Nat
  maxBlockMs : Nat
  sent : List ProducerRecord

/-- KafkaProducer.send: appends one record to the publish log. When a routing
key and a partitioner are both present the partitioner picks the partition;
otherwise the broker-side default assignment applies (modelled as none). -/
def KafkaProducer.send (kp : KafkaProducer) (topic : String) (key : Option Bytes)
    (value : Bytes) : KafkaProducer :=
  { kp with sent := kp.sent ++
      [{ topic := topic
         key := key
         partition :=
           match key with
           | some k =>
               match kp.partitioner with
               | some f => some (f k)
               | none => none
           | none => none
         value := value }] }

/-- frontera SimpleProducer (kafkabus.py lines 101-130): unkeyed producer. -/
structure SimpleProducer where
  _location : String
  _topic : String
  _compression : String
  _producer : KafkaProducer

/-- SimpleProducer.__init__ plus _create (kafkabus.py lines 102-120): builds a
KafkaProducer with retries=5 and no partitioner. The ssl/sasl arguments only
shape the connection kwargs. -/
def SimpleProducer.init (location : String) (enable_ssl : Bool) (cert_path : String)
    (topic compression : String)
    (enable_sasl : Bool) (sasl_username sasl_password : String)
    (batch_size buffer_memory max_block_ms max_request_size : Nat) : SimpleProducer :=
  { _location := location
    _topic := topic
    _compression := compression
    _producer :=
      { bootstrapServers := location
        partitioner := none
        retries := 5
        compressionType := compression
        maxRequestSize := max_request_size
        batchSize := batch_size
        bufferMemory := buffer_memory
        maxBlockMs := max_block_ms
        sent := [] } }

/-- SimpleProducer.send (kafkabus.py lines 122-124): publishes each message to
the topic with no routing key; the key argument is never read. -/
def SimpleProducer.send (p : SimpleProducer) (key : Option Bytes)
    (messages : List Bytes) : SimpleProducer :=
  { p with _producer :=
      messages.foldl (fun kp msg => kp.send p._topic none msg) p._producer }

/-- frontera KeyedProducer (kafkabus.py lines 133-161): key-routed producer. -/
structure KeyedProducer where
  _location : String
  _topic_done : String
  _partitioner : Bytes → Nat
  _compression : String
  _producer : KafkaProducer

/-- KeyedProducer.__init__ (kafkabus.py lines 134-151): builds a KafkaProducer
with the given partitioner and retries=5. -/
def KeyedProducer.init (location : String) (enable_ssl : Bool) (cert_path : String)
    (topic_done : String) (partitioner : Bytes → Nat) (compression : String)
    (enable_sasl : Bool) (sasl_username sasl_password : String)
    (batch_size buffer_memory max_block_ms max_request_size : Nat) : KeyedProducer :=
  { _location := location
    _topic_done := topic_done
    _partitioner := partitioner
    _compression := compression
    _producer :=
      { bootstrapServers := location
        partitioner := some partitioner
        retries := 5
        compressionType := compression
        maxRequestSize := max_request_size
        batchSize := batch_size
        bufferMemory := buffer_memory
        maxBlockMs := max_block_ms
        sent := [] } }

/-- KeyedProducer.send (kafkabus.py lines 153-155): publishes each message in
argument order to the done-topic, every one carrying the routing key. -/
def KeyedProducer.send (p : KeyedProducer) (key : Bytes)
    (messages : List Bytes) : KeyedProducer :=
  { p with _producer :=
      messages.foldl (fun kp msg => kp.send p._topic_done (some key) msg) p._producer }

/-- frontera MessageBus configuration root (kafkabus.py lines 300-324): all
topic names, group names, partition counts and transport settings, resolved
once from the settings object. -/
structure MessageBus where
  topic_todo : String
  topic_done : String
  topic_scoring : String
  topic_stats : String
  spiderlog_dbw_group : String
  spiderlog_sw_group : String
  scoringlog_dbw_group : String
  statslog_reader_group : String
  spider_feed_group : String
  spider_partition_id : Option Nat
  max_next_requests : Int
  hostname_partitioning : Bool
  codec : String
  kafka_location : String
  enable_ssl : Bool
  cert_path : String
  enable_sasl : Bool
  sasl_username : String
  sasl_password : String
  spider_log_partitions : Nat
  spider_feed_partitions : Nat
  kafka_max_block_ms : Nat

/-- frontera SpiderLogStream (kafkabus.py lines 164-201). -/
structure SpiderLogStream where
  _location : String
  _db_group : String
  _sw_group : String
  _topic : String
  _codec : String
  _partitions : Nat
  _enable_ssl : Bool
  _cert_path : String
  _enable_sasl : Bool
  _sasl_username : String
  _sasl_password : String
  _kafka_max_block_ms : Nat

/-- SpiderLogStream.__init__ (kafkabus.py lines 165-177). -/
def SpiderLogStream.init (mb : MessageBus) : SpiderLogStream :=
  { _location := mb.kafka_location
    _db_group := mb.spiderlog_dbw_group
    _sw_group := mb.spiderlog_sw_group
    _topic := mb.topic_done
    _codec := mb.codec
    _partitions := mb.spider_log_partitions
    _enable_ssl := mb.enable_ssl
    _cert_path := mb.cert_path
    _enable_sasl := mb.enable_sasl
    _sasl_username := mb.sasl_username
    _sasl_password := mb.sasl_password
    _kafka_max_block_ms := mb.kafka_max_block_ms }

/-- SpiderLogStream.producer (kafkabus.py lines 179-187): a KeyedProducer over
the done-topic with a FingerprintPartitioner for the configured partition
count. No partition-count validation is performed here. -/
def SpiderLogStream.producer (s : SpiderLogStream) (env : KafkaEnv) :
    Except String KeyedProducer :=
  Except.ok (KeyedProducer.init s._location s._enable_ssl s._cert_path s._topic
    (env.fingerprintPartitioner s._partitions) s._codec
    s._enable_sasl s._sasl_username s._sasl_password
    DEFAULT_BATCH_SIZE DEFAULT_BUFFER_MEMORY s._kafka_max_block_ms
    DEFAULT_MAX_REQUEST_SIZE)

/-- SpiderLogStream.consumer (kafkabus.py lines 189-201): picks the
strategy-worker group exactly when the type tag equals the byte string sw,
builds the consumer, then asserts that the actual partition count of the
topic equals the configured one. -/
def SpiderLogStream.consumer (s : SpiderLogStream) (partition_id : Option Nat)
    (type : PyVal) (env : KafkaEnv) : Except String Consumer :=
  let group := if type = swTag then s._sw_group else s._db_group
  let c := Consumer.init s._location s._enable_ssl s._cert_path s._topic group
    partition_id s._enable_sasl s._sasl_username s._sasl_password env
  if (env.broker.partitionsForTopic s._topic).length = s._partitions then Except.ok c
  else Except.error "AssertionError"

/-- frontera SpiderFeedStream (kafkabus.py lines 204-256). The
OffsetsFetcherAsync constructed in __init__ lives outside this module; its
get() snapshot is passed to available_partitions as an association list. -/
structure SpiderFeedStream where
  _location : String
  _general_group : String
  _topic : String
  _max_next_requests : Int
  _hostname_partitioning : Bool
  _enable_ssl : Bool
  _cert_path : String
  _enable_sasl : Bool
  _sasl_username : String
  _sasl_password : String
  _codec : String
  _partitions : Nat
  _kafka_max_block_ms : Nat

/-- SpiderFeedStream.__init__ (kafkabus.py lines 205-228). -/
def SpiderFeedStream.init (mb : MessageBus) : SpiderFeedStream :=
  { _location := mb.kafka_location
    _general_group := mb.spider_feed_group
    _topic := mb.topic_todo
    _max_next_requests := mb.max_next_requests
    _hostname_partitioning := mb.hostname_partitioning
    _enable_ssl := mb.enable_ssl
    _cert_path := mb.cert_path
    _enable_sasl := mb.enable_sasl
    _sasl_username := mb.sasl_username
    _sasl_password := mb.sasl_password
    _codec := mb.codec
    _partitions := mb.spider_feed_partitions
    _kafka_max_block_ms := mb.kafka_max_block_ms }

/-- SpiderFeedStream.consumer (kafkabus.py lines 230-237): builds the consumer
for the general feed group, then asserts the partition count. -/
def SpiderFeedStream.consumer (s : SpiderFeedStream) (partition_id : Option Nat)
    (env : KafkaEnv) : Except String Consumer :=
  let c := Consumer.init s._location s._enable_ssl s._cert_path s._topic
    s._general_group partition_id s._enable_sasl s._sasl_username
    s._sasl_password env
  if (env.broker.partitionsForTopic s._topic).length = s._partitions then Except.ok c
  else Except.error
    "Number of kafka topic partitions doesnt match value in config for spider feed"

/-- The for-loop of SpiderFeedStream.available_partitions: keep every
partition whose lag is strictly below max_next_requests, in snapshot order. -/
def availableLoop (max_next_requests : Int) : List (Nat × Int) → List Nat
  | [] => []
  | (partition, lag) :: rest =>
      if lag < max_next_requests then partition :: availableLoop max_next_requests rest
      else availableLoop max_next_requests rest

/-- SpiderFeedStream.available_partitions (kafkabus.py lines 239-245), with
the offsets fetcher snapshot (partition to lag) passed explicitly. -/
def SpiderFeedStream.available_partitions (s : SpiderFeedStream)
    (lags : List (Nat × Int)) : List Nat :=
  availableLoop s._max_next_requests lags

/-- SpiderFeedStream.producer (kafkabus.py lines 247-256): a KeyedProducer
over the todo-topic, partitioned by hostname or by fingerprint per the
configuration. No partition-count validation is performed here. -/
def SpiderFeedStream.producer (s : SpiderFeedStream) (env : KafkaEnv) :
    Except String KeyedProducer :=
  let partitioner :=
    if s._hostname_partitioning then env.crc32NamePartitioner s._partitions
    else env.fingerprintPartitioner s._partitions
  Except.ok (KeyedProducer.init s._location s._enable_ssl s._cert_path s._topic
    partitioner s._codec s._enable_sasl s._sasl_username s._sasl_password
    DEFAULT_BATCH_SIZE DEFAULT_BUFFER_MEMORY s._kafka_max_block_ms
    DEFAULT_MAX_REQUEST_SIZE)

/-- frontera ScoringLogStream (kafkabus.py lines 259-284). StatsLogStream
reuses this record wholesale (it subclasses ScoringLogStream), so stats
facades are values of this same type. -/
structure ScoringLogStream where
  _topic : String
  _group : String
  _location : String
  _codec : String
  _cert_path : String
  _enable_ssl : Bool
  _enable_sasl : Bool
  _sasl_username : String
  _sasl_password : String
  _kafka_max_block_ms : Nat

/-- ScoringLogStream.__init__ (kafkabus.py lines 260-270). -/
def ScoringLogStream.init (mb : MessageBus) : ScoringLogStream :=
  { _topic := mb.topic_scoring
    _group := mb.scoringlog_dbw_group
    _location := mb.kafka_location
    _codec := mb.codec
    _cert_path := mb.cert_path
    _enable_ssl := mb.enable_ssl
    _enable_sasl := mb.enable_sasl
    _sasl_username := mb.sasl_username
    _sasl_password := mb.sasl_password
    _kafka_max_block_ms := mb.kafka_max_block_ms }

/-- ScoringLogStream.consumer (kafkabus.py lines 272-276): dynamic
subscription (partition_id None), no partition-count validation. -/
def ScoringLogStream.consumer (s : ScoringLogStream) (env : KafkaEnv) :
    Except String Consumer :=
  Except.ok (Consumer.init s._location s._enable_ssl s._cert_path s._topic
    s._group none s._enable_sasl s._sasl_username s._sasl_password env)

/-- ScoringLogStream.producer (kafkabus.py lines 278-284): an unkeyed
SimpleProducer, no partition-count validation. -/
def ScoringLogStream.producer (s : ScoringLogStream) : Except String SimpleProducer :=
  Except.ok (SimpleProducer.init s._location s._enable_ssl s._cert_path s._topic
    s._codec s._enable_sasl s._sasl_username s._sasl_password
    DEFAULT_BATCH_SIZE DEFAULT_BUFFER_MEMORY s._kafka_max_block_ms
    DEFAULT_MAX_REQUEST_SIZE)

/-- StatsLogStream.__init__ (kafkabus.py lines 287-297): runs
ScoringLogStream.__init__ and then overrides the topic and the group; the
consumer and producer methods are inherited unchanged. -/
def StatsLogStream.init (mb : MessageBus) : ScoringLogStream :=
  { ScoringLogStream.init mb with
    _topic := mb.topic_stats
    _group := mb.statslog_reader_group }

/-! Concrete fixtures used by witnesses and counterexamples. -/

/-- A concrete message-bus configuration: two partitions configured for both
the spider log and the spider feed, admission threshold 5. -/
def exMB : MessageBus :=
  { topic_todo := "frontera-todo"
    topic_done := "frontera-done"
    topic_scoring := "frontera-score"
    topic_stats := "frontera-stats"
    spiderlog_dbw_group := "dbw-spider-log"
    spiderlog_sw_group := "sw-spider-log"
    scoringlog_dbw_group := "dbw-scoring-log"
    statslog_reader_group := "stats-reader"
    spider_feed_group := "fetchers-spider-feed"
    spider_partition_id := none
    max_next_requests := 5
    hostname_partitioning := false
    codec := "snappy"
    kafka_location := "localhost:9092"
    enable_ssl := false
    cert_path := ""
    enable_sasl := false
    sasl_username := ""
    sasl_password := ""
    spider_log_partitions := 2
    spider_feed_partitions := 2
    kafka_max_block_ms := 60000 }

/-- An environment whose broker reports two partitions for every topic and
whose commits succeed: it matches the configured counts of `exMB`. -/
def exGoodEnv : KafkaEnv :=
  { broker := ⟨fun _ => [0, 1]⟩
    pending := [[10], [20], [30]]
    positionOf := fun _ => 7
    commitFails := false
    fingerprintPartitioner := fun _ _ => 0
    crc32NamePartitioner := fun _ _ => 0 }

/-- An environment whose broker reports three partitions for every topic —
a mismatch against the configured count 2 of `exMB` — and whose commit
attempts fail. -/
def exBadEnv : KafkaEnv :=
  { broker := ⟨fun _ => [0, 1, 2]⟩
    pending := [[10], [20], [30]]
    positionOf := fun _ => 7
    commitFails := true
    fingerprintPartitioner := fun _ _ => 0
    crc32NamePartitioner := fun _ _ => 0 }

/-- A concrete consumer built in the good environment with a static
assignment to partition 0. -/
def exAssignedConsumer : Consumer :=
  Consumer.init exMB.kafka_location exMB.enable_ssl exMB.cert_path
    exMB.topic_done exMB.spiderlog_dbw_group (some 0) exMB.enable_sasl
    exMB.sasl_username exMB.sasl_password exGoodEnv

/-- A concrete consumer whose commit attempts fail. -/
def exFailingConsumer : Consumer :=
  Consumer.init exMB.kafka_location exMB.enable_ssl exMB.cert_path
    exMB.topic_scoring exMB.scoringlog_dbw_group none exMB.enable_sasl
    exMB.sasl_username exMB.sasl_password exBadEnv

/-! Helper lemmas. -/

/-- The get_messages loop takes the first `count` pending messages and leaves
the rest. -/
theorem getMessagesLoop_eq (count : Nat) (pending : List Bytes) :
    getMessagesLoop count pending = (pending.take count, pending.drop count) := by
  induction count generalizing pending with
  | zero => simp [getMessagesLoop]
  | succ n ih =>
      cases pending with
      | nil => simp [getMessagesLoop]
      | cons m rest => simp [getMessagesLoop, ih]

/-- Folding KafkaProducer.send over a message list appends one record per
message, in order, all with the same topic and key. -/
theorem sendFold_sent (topic : String) (key : Option Bytes)
    (messages : List Bytes) (kp : KafkaProducer) :
    (messages.foldl (fun acc msg => acc.send topic key msg) kp).sent
      = kp.sent ++ messages.map (fun m =>
          { topic := topic
            key := key
            partition :=
              match key with
              | some k =>
                  match kp.partitioner with
                  | some f => some (f k)
                  | none => none
              | none => none
            value := m }) := by
  induction messages generalizing kp with
  | nil => simp
  | cons m rest ih =>
      rw [List.foldl_cons, ih]
      simp [KafkaProducer.send]

/-- Folding KafkaProducer.send never changes the partitioner. -/
theorem sendFold_partitioner (topic : String) (key : Option Bytes)
    (messages : List Bytes) (kp : KafkaProducer) :
    (messages.foldl (fun acc msg => acc.send topic key msg) kp).partitioner
      = kp.partitioner := by
  induction messages generalizing kp with
  | nil => rfl
  | cons m rest ih =>
      rw [List.foldl_cons, ih]
      rfl

/-- Membership in the admission-control loop output: a partition is listed
iff the snapshot holds a lag for it below the threshold. -/
theorem mem_availableLoop (maxN : Int) (lags : List (Nat × Int)) (p : Nat) :
    p ∈ availableLoop maxN lags ↔ ∃ lag : Int, (p, lag) ∈ lags ∧ lag < maxN := by
  induction lags with
  | nil => simp [availableLoop]
  | cons hd rest ih =>
      obtain ⟨q, lag⟩ := hd
      by_cases h : lag < maxN
      · simp only [availableLoop, if_pos h, List.mem_cons, ih, Prod.mk.injEq]
        constructor
        · rintro (rfl | ⟨l, hl, hlt⟩)
          · exact ⟨lag, Or.inl ⟨rfl, rfl⟩, h⟩
          · exact ⟨l, Or.inr hl, hlt⟩
        · rintro ⟨l, ⟨rfl, rfl⟩ | hl, hlt⟩
          · exact Or.inl rfl
          · exact Or.inr ⟨l, hl, hlt⟩
      · simp only [availableLoop, if_neg h, ih, List.mem_cons, Prod.mk.injEq]
        constructor
        · rintro ⟨l, hl, hlt⟩
          exact ⟨l, Or.inr hl, hlt⟩
        · rintro ⟨l, ⟨rfl, rfl⟩ | hl, hlt⟩
          · exact absurd hlt h
          · exact ⟨l, hl, hlt⟩

/-- In a snapshot with pairwise distinct partition keys, the lag recorded for
a partition is unique. -/
theorem assoc_lag_unique (lags : List (Nat × Int))
    (hnd : (lags.map Prod.fst).Nodup) (p : Nat) (l1 l2 : Int)
    (h1 : (p, l1) ∈ lags) (h2 : (p, l2) ∈ lags) : l1 = l2 := by
  induction lags with
  | nil => simp at h1
  | cons hd rest ih =>
      obtain ⟨q, m⟩ := hd
      simp only [List.map_cons, List.nodup_cons] at hnd
      rcases List.mem_cons.mp h1 with e1 | m1
      · rcases List.mem_cons.mp h2 with e2 | m2
        · rw [Prod.mk.injEq] at e1 e2
          rw [e1.2, e2.2]
        · exfalso
          apply hnd.1
          rw [Prod.mk.injEq] at e1
          exact List.mem_map.mpr ⟨(p, l2), m2, e1.1⟩
      · rcases List.mem_cons.mp h2 with e2 | m2
        · exfalso
          apply hnd.1
          rw [Prod.mk.injEq] at e2
          exact List.mem_map.mpr ⟨(p, l1), m1, e2.1⟩
        · exact ih hnd.2 m1 m2

/-! Claim theorems. -/

/-- Claim C1: for every lag snapshot returned by the offsets fetcher (an
association list with pairwise distinct partition keys, as a dict yields) and
every configured threshold, available_partitions lists exactly the partitions
whose lag is strictly below max_next_requests: a partition recorded with lag
`lag` is listed iff lag < threshold, hence excluded iff lag ≥ threshold. -/
theorem available_partitions_lag_threshold (s : SpiderFeedStream)
    (lags : List (Nat × Int)) (hnd : (lags.map Prod.fst).Nodup)
    (p : Nat) (lag : Int) (hmem : (p, lag) ∈ lags) :
    p ∈ s.available_partitions lags ↔ lag < s._max_next_requests := by
  unfold SpiderFeedStream.available_partitions
  rw [mem_availableLoop]
  constructor
  · rintro ⟨l, hl, hlt⟩
    rwa [assoc_lag_unique lags hnd p lag l hmem hl]
  · intro h
    exact ⟨lag, hmem, h⟩

/-- Witness for C1: in a snapshot where partition 0 has lag 10 and partition
1 has lag 3, against threshold 5, partition 1 is available iff 3 < 5. -/
theorem available_partitions_lag_threshold_witness :
    1 ∈ (SpiderFeedStream.init exMB).available_partitions [(0, 10), (1, 3)] ↔
      (3 : Int) < (SpiderFeedStream.init exMB)._max_next_requests :=
  available_partitions_lag_threshold (SpiderFeedStream.init exMB)
    [(0, 10), (1, 3)] (by decide) 1 3 (by decide)

/-- Claim C2 counterexample: with a broker reporting 3 partitions against a
configured spider-log partition count of 2, SpiderLogStream.producer does not
fail with a configuration-mismatch error — it returns a fully usable
KeyedProducer — so partition-count validation does not happen at producer
creation. -/
theorem producer_creation_skips_validation_counterexample :
    (exBadEnv.broker.partitionsForTopic (SpiderLogStream.init exMB)._topic).length ≠
        (SpiderLogStream.init exMB)._partitions
    ∧ SpiderLogStream.producer (SpiderLogStream.init exMB) exBadEnv =
        Except.ok (KeyedProducer.init exMB.kafka_location exMB.enable_ssl
          exMB.cert_path exMB.topic_done
          (exBadEnv.fingerprintPartitioner exMB.spider_log_partitions) exMB.codec
          exMB.enable_sasl exMB.sasl_username exMB.sasl_password
          DEFAULT_BATCH_SIZE DEFAULT_BUFFER_MEMORY exMB.kafka_max_block_ms
          DEFAULT_MAX_REQUEST_SIZE) :=
  ⟨by decide, rfl⟩

/-- Claim C2 amended: partition-count validation happens only at consumer
creation on SpiderLogStream and SpiderFeedStream — those succeed iff the
actual partition count of the topic equals the configured count, failing the
assertion otherwise — while producer creation on every facade, and consumer
creation on ScoringLogStream and StatsLogStream, always succeed with no
partition-count validation. -/
theorem partition_count_validation_placement (mb : MessageBus) (env : KafkaEnv)
    (pid : Option Nat) (t : PyVal) :
    ((SpiderLogStream.consumer (SpiderLogStream.init mb) pid t env).isOk = true ↔
        (env.broker.partitionsForTopic mb.topic_done).length = mb.spider_log_partitions)
    ∧ ((SpiderFeedStream.consumer (SpiderFeedStream.init mb) pid env).isOk = true ↔
        (env.broker.partitionsForTopic mb.topic_todo).length = mb.spider_feed_partitions)
    ∧ (SpiderLogStream.producer (SpiderLogStream.init mb) env).isOk = true
    ∧ (SpiderFeedStream.producer (SpiderFeedStream.init mb) env).isOk = true
    ∧ (ScoringLogStream.consumer (ScoringLogStream.init mb) env).isOk = true
    ∧ (ScoringLogStream.producer (ScoringLogStream.init mb)).isOk = true
    ∧ (ScoringLogStream.consumer (StatsLogStream.init mb) env).isOk = true
    ∧ (ScoringLogStream.producer (StatsLogStream.init mb)).isOk = true := by
  refine ⟨?_, ?_, rfl, rfl, rfl, rfl, rfl, rfl⟩
  · by_cases h : (env.broker.partitionsForTopic mb.topic_done).length = mb.spider_log_partitions
    · simp [SpiderLogStream.consumer, SpiderLogStream.init, h, Except.isOk, Except.toBool]
    · simp [SpiderLogStream.consumer, SpiderLogStream.init, h, Except.isOk, Except.toBool]
  · by_cases h : (env.broker.partitionsForTopic mb.topic_todo).length = mb.spider_feed_partitions
    · simp [SpiderFeedStream.consumer, SpiderFeedStream.init, h, Except.isOk, Except.toBool]
    · simp [SpiderFeedStream.consumer, SpiderFeedStream.init, h, Except.isOk, Except.toBool]

/-- Claim C3: KeyedProducer.send publishes every message of the call to the
done-topic of the producer, each record carrying the routing key, appended to
the publish log in argument order; the partition recorded for every message
of the call is the one the partitioner of the producer assigns to that key,
and the partitioner is unchanged by the send, so all messages sharing a key
land in the same partition in send order. -/
theorem keyed_send_key_routing_and_order (p : KeyedProducer) (key : Bytes)
    (messages : List Bytes) :
    (p.send key messages)._producer.sent
      = p._producer.sent ++ messages.map (fun m =>
          { topic := p._topic_done
            key := some key
            partition := p._producer.partitioner.map (fun f => f key)
            value := m })
    ∧ (p.send key messages)._producer.partitioner = p._producer.partitioner := by
  constructor
  · unfold KeyedProducer.send
    rw [sendFold_sent]
    cases hp : p._producer.partitioner <;> simp [hp]
  · exact sendFold_partitioner p._topic_done (some key) messages p._producer

/-- Claim C4 counterexample: on a consumer whose commit attempt fails,
close() propagates the commit error and the connection is not released — a
failed commit does prevent the connection release, blocking shutdown. -/
theorem close_commit_failure_blocks_release_counterexample :
    (exFailingConsumer.close).1 = Except.error "CommitFailedError"
    ∧ (exFailingConsumer.close).2._consumer.closed = false :=
  ⟨rfl, rfl⟩

/-- Claim C4 amended: close() commits the current read position of the group
and then releases the connection when the commit succeeds; when the commit
fails, the commit error propagates, the connection release is skipped and the
consumer state is unchanged. -/
theorem consumer_close_commit_then_release (c : Consumer) :
    (c._consumer.commitFails = false →
        (c.close).1 = Except.ok ()
        ∧ (c.close).2._consumer.committed = true
        ∧ (c.close).2._consumer.closed = true)
    ∧ (c._consumer.commitFails = true →
        (c.close).1 = Except.error "CommitFailedError"
        ∧ (c.close).2 = c) := by
  constructor <;> intro h <;>
    simp [Consumer.close, KafkaConsumer.commit, h, KafkaConsumer.closeConnection]

/-- Witness for the amended C4 at a concrete consumer whose commit succeeds:
close commits and releases the connection. -/
theorem consumer_close_commit_then_release_witness :
    (exAssignedConsumer.close).1 = Except.ok ()
    ∧ (exAssignedConsumer.close).2._consumer.committed = true
    ∧ (exAssignedConsumer.close).2._consumer.closed = true :=
  (consumer_close_commit_then_release exAssignedConsumer).1 rfl

/-- Claim C5: get_offset returns an integer offset when the queried partition
index is among the assigned partitions of the consumer, and raises a KeyError
when it is not. -/
theorem get_offset_partition_assignment (c : Consumer) (pid : Nat) :
    ((∃ tp ∈ c._partitions, tp.partition = pid) →
        ∃ off : Int, c.get_offset pid = Except.ok off)
    ∧ ((∀ tp ∈ c._partitions, tp.partition ≠ pid) →
        c.get_offset pid = Except.error "KeyError: Cant find partition") := by
  constructor
  · rintro ⟨tp, htp, he⟩
    cases hf : c._partitions.find? (fun t => t.partition == pid) with
    | none =>
        rw [List.find?_eq_none] at hf
        exact absurd (by simpa using he) (by simpa using hf tp htp)
    | some t =>
        exact ⟨c._consumer.positionOf t, by simp [Consumer.get_offset, hf]⟩
  · intro h
    have hf : c._partitions.find? (fun t => t.partition == pid) = none := by
      rw [List.find?_eq_none]
      intro t ht
      simpa using h t ht
    simp [Consumer.get_offset, hf]

/-- Witness for C5: the consumer statically assigned partition 0 yields an
offset for partition 0. -/
theorem get_offset_partition_assignment_witness :
    ∃ off : Int, exAssignedConsumer.get_offset 0 = Except.ok off :=
  (get_offset_partition_assignment exAssignedConsumer 0).1 (by decide)

/-- Claim C6: one get_messages call returns a finite batch of between 0 and
count messages — namely the first count pending messages — and advances the
consumer past exactly that batch, so every call produces a fresh batch and
repeated calls are safe. -/
theorem get_messages_bounded_fresh_batch (c : Consumer) (timeout : ℚ)
    (count : Nat) :
    (c.get_messages timeout count).1.length ≤ count
    ∧ (c.get_messages timeout count).1 = c._consumer.pending.take count
    ∧ (c.get_messages timeout count).2._consumer.pending
        = c._consumer.pending.drop count := by
  refine ⟨?_, ?_, ?_⟩ <;>
    simp [Consumer.get_messages, getMessagesLoop_eq, List.length_take]

/-- Claim C7: StatsLogStream is ScoringLogStream with only the topic and the
group replaced by the stats topic and the stats-reader group; its consumer
and producer are exactly the ScoringLogStream ones on that substituted
configuration, concretely a dynamic-subscription consumer on the stats topic
under the stats-reader group. -/
theorem statslog_mirrors_scoringlog (mb : MessageBus) (env : KafkaEnv) :
    StatsLogStream.init mb
      = { ScoringLogStream.init mb with
          _topic := mb.topic_stats
          _group := mb.statslog_reader_group }
    ∧ ScoringLogStream.consumer (StatsLogStream.init mb) env
        = ScoringLogStream.consumer
            { ScoringLogStream.init mb with
              _topic := mb.topic_stats
              _group := mb.statslog_reader_group } env
    ∧ ScoringLogStream.producer (StatsLogStream.init mb)
        = ScoringLogStream.producer
            { ScoringLogStream.init mb with
              _topic := mb.topic_stats
              _group := mb.statslog_reader_group }
    ∧ ScoringLogStream.consumer (StatsLogStream.init mb) env
        = Except.ok (Consumer.init mb.kafka_location mb.enable_ssl mb.cert_path
            mb.topic_stats mb.statslog_reader_group none mb.enable_sasl
            mb.sasl_username mb.sasl_password env) :=
  ⟨rfl, rfl, rfl, rfl⟩

/-- Claim C8: SimpleProducer.send ignores its key argument — two calls with
different keys from the same state are identical — and publishes each message
of the call to the topic of the producer with no routing key and no
key-derived partition, in argument order. -/
theorem simple_send_key_independent (p : SimpleProducer) (k1 k2 : Option Bytes)
    (messages : List Bytes) :
    p.send k1 messages = p.send k2 messages
    ∧ (p.send k1 messages)._producer.sent
        = p._producer.sent ++ messages.map (fun m =>
            { topic := p._topic, key := none, partition := none, value := m }) := by
  constructor
  · rfl
  · unfold SimpleProducer.send
    rw [sendFold_sent]

/-- Claim C9: SpiderLogStream.consumer selects the strategy-worker group
exactly when the type tag is the byte string sw; any other tag — in
particular the text string sw, which is a distinct Python 3 value — selects
the DB-writer group. Stated on configurations that pass the partition-count
assertion, so the consumer is actually returned. -/
theorem spiderlog_consumer_group_selection (mb : MessageBus) (env : KafkaEnv)
    (pid : Option Nat) (t : PyVal)
    (hlen : (env.broker.partitionsForTopic mb.topic_done).length
      = mb.spider_log_partitions) :
    (SpiderLogStream.consumer (SpiderLogStream.init mb) pid swTag env
        = Except.ok (Consumer.init mb.kafka_location mb.enable_ssl mb.cert_path
            mb.topic_done mb.spiderlog_sw_group pid mb.enable_sasl
            mb.sasl_username mb.sasl_password env))
    ∧ (t ≠ swTag →
        SpiderLogStream.consumer (SpiderLogStream.init mb) pid t env
          = Except.ok (Consumer.init mb.kafka_location mb.enable_ssl mb.cert_path
              mb.topic_done mb.spiderlog_dbw_group pid mb.enable_sasl
              mb.sasl_username mb.sasl_password env))
    ∧ PyVal.str "sw" ≠ swTag := by
  refine ⟨?_, ?_, by simp [swTag]⟩
  · simp [SpiderLogStream.consumer, SpiderLogStream.init, hlen]
  · intro hne
    simp [SpiderLogStream.consumer, SpiderLogStream.init, hlen, hne]

/-- Witness for C9 at a concrete bus whose partition counts match: the sw
byte tag picks the strategy-worker group, and the str tag sw picks the
DB-writer group. -/
theorem spiderlog_consumer_group_selection_witness :
    (SpiderLogStream.consumer (SpiderLogStream.init exMB) (some 0) swTag exGoodEnv
        = Except.ok (Consumer.init exMB.kafka_location exMB.enable_ssl
            exMB.cert_path exMB.topic_done exMB.spiderlog_sw_group (some 0)
            exMB.enable_sasl exMB.sasl_username exMB.sasl_password exGoodEnv))
    ∧ (SpiderLogStream.consumer (SpiderLogStream.init exMB) (some 0)
          (PyVal.str "sw") exGoodEnv
        = Except.ok (Consumer.init exMB.kafka_location exMB.enable_ssl
            exMB.cert_path exMB.topic_done exMB.spiderlog_dbw_group (some 0)
            exMB.enable_sasl exMB.sasl_username exMB.sasl_password exGoodEnv)) :=
  ⟨(spiderlog_consumer_group_selection exMB exGoodEnv (some 0)
      (PyVal.str "sw") (by decide)).1,
   (spiderlog_consumer_group_selection exMB exGoodEnv (some 0)
      (PyVal.str "sw") (by decide)).2.1 (by decide)⟩

/-- Claim C10: get_messages never reads its timeout argument — any two
timeout values give identical results from the same consumer state — and the
consumer construction pins the only blocking bound, consumer_timeout_ms, to
the fixed value 100. -/
theorem get_messages_timeout_unused (c : Consumer) (t1 t2 : ℚ) (count : Nat)
    (location : String) (enable_ssl : Bool) (cert_path : String)
    (topic group : String) (pid : Option Nat) (enable_sasl : Bool)
    (su sp : String) (env : KafkaEnv) :
    c.get_messages t1 count = c.get_messages t2 count
    ∧ (Consumer.init location enable_ssl cert_path topic group pid enable_sasl
        su sp env)._consumer.consumerTimeoutMs = 100 :=
  ⟨rfl, rfl⟩

end Kafkabus
